import Mathlib

/-!
# Verification of the car-audio-events MCP server

Shallow embedding of the two Python source files under scrutiny:

* `mcp-server/main.py` — the FastAPI endpoint layer (bearer-token check,
  six endpoint handlers, each synthesizing its response inline);
* `mcp-server/services/supabase_service.py` — the data-access shim
  (`SupabaseService`), in particular its mock mode (`self.client is None`),
  whose operations return literals built from the arguments and the clock,
  and the live-path analytics sub-queries with their per-metric catch.

JSON values are embedded as the inductive `JVal`; a Python dict is an
association list (`Obj`) with Python's "later key wins" update semantics
(`dictInsert` / `dictMerge` for `**` spreads).  Nested dicts and lists
stored as values are injected into `JVal` by `JVal.objOf` / `JVal.arrOf`.
Python `float` fields (prices, amounts) are carried as `Rat`: the embedded
code only stores and compares them, never performs float arithmetic whose
rounding could matter.  Each handler's calls to `datetime.now()` are
modelled as readings of one ambient `Clock` value supplied as an explicit
argument: `ts` stands for `str(datetime.now().timestamp())`, `iso` for
`datetime.now().isoformat()`, and `day` for
`datetime.now().strftime("%Y-%m-%d")`.
-/

/-- Embedded JSON value.  Arrays and objects are spelled as cons-trees
(`anil`/`acons`, `onil`/`ocons`) so that equality is derivable; the
helpers `JVal.arrOf` and `JVal.objOf` build them from lists. -/
inductive JVal : Type where
  | s (v : String)
  | i (v : Int)
  | q (v : Rat)
  | b (v : Bool)
  | null
  | anil
  | acons (head : JVal) (tail : JVal)
  | onil
  | ocons (key : String) (val : JVal) (tail : JVal)
deriving DecidableEq, Repr

/-- A Python dict with string keys, in insertion order. -/
abbrev Obj : Type := List (String × JVal)

/-- A JSON array value from a list of values. -/
def JVal.arrOf : List JVal → JVal
  | [] => JVal.anil
  | v :: vs => JVal.acons v (JVal.arrOf vs)

/-- A JSON object value from a dict. -/
def JVal.objOf : Obj → JVal
  | [] => JVal.onil
  | (k, v) :: rest => JVal.ocons k v (JVal.objOf rest)

/-- Key lookup in a dict.  Keys are unique in every dict the embedded code
builds, so returning the first match is Python's lookup. -/
def getField (o : Obj) (k : String) : Option JVal :=
  match o with
  | [] => none
  | (k', v) :: rest => if k' = k then some v else getField rest k

/-- Whether a dict has a key. -/
def hasKey (o : Obj) (k : String) : Bool :=
  (getField o k).isSome

/-- Python dict write `d[k] = v`: overwrites an existing entry in place,
otherwise appends (insertion order preserved). -/
def dictInsert (d : Obj) (k : String) (v : JVal) : Obj :=
  if d.any (fun kv => kv.1 = k) then
    d.map (fun kv => if kv.1 = k then (k, v) else kv)
  else
    d ++ [(k, v)]

/-- Python `{**d, **e}`: the entries of `e` written left to right into `d`. -/
def dictMerge (d : Obj) (e : Obj) : Obj :=
  e.foldl (fun acc kv => dictInsert acc kv.1 kv.2) d

/-- One reading of the wall clock, as the three string renderings the
Python code takes from `datetime.now()`. -/
structure Clock : Type where
  ts : String
  iso : String
  day : String
deriving DecidableEq, Repr

/-- Python `xs[:n]` on a list: a nonnegative bound takes a leading segment,
a negative bound drops `|n|` elements from the end (never below empty). -/
def pySliceTo (n : Int) (xs : List α) : List α :=
  if 0 ≤ n then xs.take n.toNat
  else xs.take (xs.length - min xs.length n.natAbs)

/-- Python `x or d` for an optional string `x`: `None` and the empty string
are falsy and yield the default. -/
def pyOrStr (x : Option String) (d : String) : String :=
  match x with
  | some v => if v = "" then d else v
  | none => d

/-- The ASCII single-quote character, as it appears in response messages. -/
def quoteMark : String := (Char.ofNat 39).toString

/-! ## Request models (the pydantic models of `main.py`)

Defaults (`max_competitors = 100`, `currency = "USD"`, `priority =
"medium"`, the metrics default) are applied by pydantic at parse time; the
structures hold the parsed values. -/

/-- `EventCreate` from `main.py`. -/
structure EventCreate : Type where
  name : String
  event_type : String
  start_date : String
  end_date : String
  location : String
  venue_name : String
  max_competitors : Int
  early_bird_price : Rat
  regular_price : Rat
  description : Option String
deriving DecidableEq, Repr

/-- `CompetitorRegistration` from `main.py`.  `vehicle_info` is an
arbitrary dict. -/
structure CompetitorRegistration : Type where
  event_id : String
  competitor_name : String
  email : String
  phone : String
  vehicle_info : Obj
  class_id : String
  team_name : Option String
deriving DecidableEq, Repr

/-- `EventAnalytics` from `main.py`. -/
structure EventAnalytics : Type where
  event_id : Option String
  start_date : Option String
  end_date : Option String
  metrics : List String
deriving DecidableEq, Repr

/-- `PaymentProcess` from `main.py`. -/
structure PaymentProcess : Type where
  registration_id : String
  amount : Rat
  currency : String
  payment_method : String
  metadata : Option Obj
deriving DecidableEq, Repr

/-- `SupportTicket` from `main.py`. -/
structure SupportTicket : Type where
  subject : String
  description : String
  priority : String
  category : String
  user_email : String
  attachments : Option (List String)
deriving DecidableEq, Repr

/-! ## Endpoint layer (`main.py`) -/

/-- The fallback value of `MCP_API_TOKEN` in `verify_token`. -/
def defaultToken : String := "car-audio-events-mcp-token"

/-- Body of `GET /`. -/
def root_body (c : Clock) : Obj :=
  [("message", JVal.s "Car Audio Events MCP Server"),
   ("status", JVal.s "operational"),
   ("timestamp", JVal.s c.iso),
   ("endpoints", JVal.objOf
     [("events", JVal.s "/api/events"),
      ("registrations", JVal.s "/api/registrations"),
      ("analytics", JVal.s "/api/analytics"),
      ("payments", JVal.s "/api/payments"),
      ("support", JVal.s "/api/support")])]

/-- Body of `GET /health`. -/
def health_body (c : Clock) : Obj :=
  [("status", JVal.s "healthy"),
   ("timestamp", JVal.s c.iso),
   ("service", JVal.s "Car Audio Events MCP Server")]

/-- The `created_event` dict synthesized by `create_event` in `main.py`.
Note which submitted fields it carries: `max_competitors`,
`early_bird_price`, `regular_price` and `description` are dropped. -/
def create_event_record (c : Clock) (e : EventCreate) : Obj :=
  [("id", JVal.s ("evt_" ++ c.ts)),
   ("name", JVal.s e.name),
   ("type", JVal.s e.event_type),
   ("start_date", JVal.s e.start_date),
   ("end_date", JVal.s e.end_date),
   ("location", JVal.s e.location),
   ("venue", JVal.s e.venue_name),
   ("status", JVal.s "draft"),
   ("created_at", JVal.s c.iso)]

/-- Body of `POST /api/events` (after the auth dependency). -/
def create_event_body (c : Clock) (e : EventCreate) : Obj :=
  [("success", JVal.b true),
   ("message", JVal.s ("Event " ++ quoteMark ++ e.name ++ quoteMark
      ++ " created successfully")),
   ("event", JVal.objOf (create_event_record c e))]

/-- The two events hard-coded in `list_events` in `main.py`. -/
def seededEvents : List Obj :=
  [[("id", JVal.s "evt_001"),
    ("name", JVal.s "Summer Bass Championship 2025"),
    ("type", JVal.s "SPL"),
    ("start_date", JVal.s "2025-06-15"),
    ("location", JVal.s "Miami, FL"),
    ("status", JVal.s "published"),
    ("registrations", JVal.i 45)],
   [("id", JVal.s "evt_002"),
    ("name", JVal.s "SQ Masters Series"),
    ("type", JVal.s "SQ"),
    ("start_date", JVal.s "2025-07-20"),
    ("location", JVal.s "Atlanta, GA"),
    ("status", JVal.s "published"),
    ("registrations", JVal.i 32)]]

/-- The seeded events after the two `if` filters of `list_events`
(Python truthiness: `None` and `""` skip a filter). -/
def filteredEvents (status_q event_type_q : Option String) : List Obj :=
  let evs := seededEvents
  let evs :=
    match status_q with
    | some st => if st = "" then evs
        else evs.filter (fun e => getField e "status" == some (JVal.s st))
    | none => evs
  match event_type_q with
  | some ty => if ty = "" then evs
      else evs.filter (fun e => getField e "type" == some (JVal.s ty))
  | none => evs

/-- Body of `GET /api/events`: `count` is the length of the filtered list,
`events` is `events[:limit]` of it. -/
def list_events_body (status_q event_type_q : Option String)
    (limit : Int) : Obj :=
  let events := filteredEvents status_q event_type_q
  [("success", JVal.b true),
   ("count", JVal.i events.length),
   ("events", JVal.arrOf ((pySliceTo limit events).map JVal.objOf))]

/-- The `created_registration` dict of `register_competitor` in `main.py`.
It drops the submitted `phone`, `vehicle_info` and `team_name`. -/
def register_competitor_record (c : Clock)
    (r : CompetitorRegistration) : Obj :=
  [("id", JVal.s ("reg_" ++ c.ts)),
   ("event_id", JVal.s r.event_id),
   ("competitor", JVal.s r.competitor_name),
   ("email", JVal.s r.email),
   ("class", JVal.s r.class_id),
   ("status", JVal.s "pending_payment"),
   ("created_at", JVal.s c.iso)]

/-- Body of `POST /api/registrations` (after the auth dependency). -/
def register_competitor_body (c : Clock)
    (r : CompetitorRegistration) : Obj :=
  [("success", JVal.b true),
   ("message", JVal.s "Registration created successfully"),
   ("registration", JVal.objOf (register_competitor_record c r))]

/-- The `metrics` sub-dict built by `get_analytics` in `main.py`: starting
from `{}`, one hard-coded literal is written per requested metric name. -/
def get_analytics_metrics (metrics : List String) : Obj :=
  let m : Obj := []
  let m := if metrics.contains "registrations" then
      dictInsert m "registrations" (JVal.objOf
        [("total", JVal.i 156),
         ("growth", JVal.s "+12%"),
         ("by_class", JVal.objOf
           [("SPL", JVal.i 89), ("SQ", JVal.i 45), ("Show", JVal.i 22)])])
    else m
  let m := if metrics.contains "revenue" then
      dictInsert m "revenue" (JVal.objOf
        [("total", JVal.q 15600),
         ("average_per_event", JVal.q 3120),
         ("by_payment_method", JVal.objOf
           [("stripe", JVal.q 12000), ("paypal", JVal.q 3600)])])
    else m
  if metrics.contains "attendance" then
    dictInsert m "attendance" (JVal.objOf
      [("total_attendees", JVal.i 450),
       ("average_per_event", JVal.i 90),
       ("retention_rate", JVal.s "78%")])
  else m

/-- The `analytics_data` dict of `get_analytics` in `main.py`. -/
def get_analytics_data (c : Clock) (a : EventAnalytics) : Obj :=
  [("period", JVal.objOf
     [("start", JVal.s (pyOrStr a.start_date "2025-01-01")),
      ("end", JVal.s (pyOrStr a.end_date c.day))]),
   ("metrics", JVal.objOf (get_analytics_metrics a.metrics))]

/-- Body of `POST /api/analytics` (after the auth dependency). -/
def get_analytics_body (c : Clock) (a : EventAnalytics) : Obj :=
  [("success", JVal.b true),
   ("analytics", JVal.objOf (get_analytics_data c a))]

/-- The `payment_result` dict of `process_payment` in `main.py`.  The
submitted `metadata` is dropped; `status` is always `"succeeded"`. -/
def process_payment_record (c : Clock) (p : PaymentProcess) : Obj :=
  [("id", JVal.s ("pay_" ++ c.ts)),
   ("registration_id", JVal.s p.registration_id),
   ("amount", JVal.q p.amount),
   ("currency", JVal.s p.currency),
   ("status", JVal.s "succeeded"),
   ("payment_method", JVal.s p.payment_method),
   ("processed_at", JVal.s c.iso)]

/-- Body of `POST /api/payments` (after the auth dependency). -/
def process_payment_body (c : Clock) (p : PaymentProcess) : Obj :=
  [("success", JVal.b true),
   ("message", JVal.s "Payment processed successfully"),
   ("payment", JVal.objOf (process_payment_record c p))]

/-- The `created_ticket` dict of `create_support_ticket` in `main.py`.
The submitted `attachments` are dropped; `status` is `"open"`. -/
def create_support_ticket_record (c : Clock) (t : SupportTicket) : Obj :=
  [("id", JVal.s ("tkt_" ++ c.ts)),
   ("subject", JVal.s t.subject),
   ("description", JVal.s t.description),
   ("priority", JVal.s t.priority),
   ("category", JVal.s t.category),
   ("status", JVal.s "open"),
   ("created_by", JVal.s t.user_email),
   ("created_at", JVal.s c.iso)]

/-- Body of `POST /api/support` (after the auth dependency). -/
def create_support_ticket_body (c : Clock) (t : SupportTicket) : Obj :=
  [("success", JVal.b true),
   ("message", JVal.s "Support ticket created successfully"),
   ("ticket", JVal.objOf (create_support_ticket_record c t))]

/-- An HTTP response of the service: status code, extra headers, JSON body. -/
structure HttpResponse : Type where
  statusCode : Nat
  headers : List (String × String)
  body : Obj
deriving DecidableEq, Repr

/-- A 200 response with a JSON body. -/
def ok200 (o : Obj) : HttpResponse :=
  { statusCode := 200, headers := [], body := o }

/-- The `try/except` wrapper each handler body sits in: a raised exception
`e` becomes `HTTPException(status_code=500, detail=str(e))`. -/
def handlerWrap (r : Except String Obj) : HttpResponse :=
  match r with
  | Except.ok o => ok200 o
  | Except.error e =>
      { statusCode := 500, headers := [], body := [("detail", JVal.s e)] }

/-- The response raised by `verify_token` on a token mismatch: 401 with a
`WWW-Authenticate: Bearer` challenge.  The rejection of a request with no
bearer token at all is performed by the external `HTTPBearer` security
scheme before `verify_token` runs; the spec describes it with the same
401 challenge, and it is modelled so here. -/
def response401 : HttpResponse :=
  { statusCode := 401,
    headers := [("WWW-Authenticate", "Bearer")],
    body := [("detail", JVal.s "Invalid authentication credentials")] }

/-- One incoming HTTP request.  Authenticated routes carry the bearer token
of the `Authorization` header (`none` when absent). -/
inductive Request : Type where
  | root
  | health
  | createEvent (tok : Option String) (e : EventCreate)
  | listEvents (status_q event_type_q : Option String) (limit : Int)
  | registerCompetitor (tok : Option String) (r : CompetitorRegistration)
  | analytics (tok : Option String) (a : EventAnalytics)
  | payment (tok : Option String) (p : PaymentProcess)
  | support (tok : Option String) (t : SupportTicket)
deriving DecidableEq, Repr

/-- The bearer token a request presents, when the route is authenticated:
`none` for the three unauthenticated routes, `some tok` otherwise. -/
def Request.bearer : Request → Option (Option String)
  | Request.root => none
  | Request.health => none
  | Request.listEvents _ _ _ => none
  | Request.createEvent tok _ => some tok
  | Request.registerCompetitor tok _ => some tok
  | Request.analytics tok _ => some tok
  | Request.payment tok _ => some tok
  | Request.support tok _ => some tok

/-- Whether a request addresses one of the six `/api` routes. -/
def Request.isApi : Request → Bool
  | Request.root => false
  | Request.health => false
  | _ => true

/-- The whole service: the token gate of `verify_token` (compared against
the configured `MCP_API_TOKEN` value `cfg`) followed by the handler body,
which never raises, wrapped by `handlerWrap`. -/
def serve (cfg : String) (c : Clock) : Request → HttpResponse
  | Request.root => ok200 (root_body c)
  | Request.health => ok200 (health_body c)
  | Request.listEvents s t l => handlerWrap (Except.ok (list_events_body s t l))
  | Request.createEvent tok e =>
      if tok = some cfg then handlerWrap (Except.ok (create_event_body c e))
      else response401
  | Request.registerCompetitor tok r =>
      if tok = some cfg then
        handlerWrap (Except.ok (register_competitor_body c r))
      else response401
  | Request.analytics tok a =>
      if tok = some cfg then handlerWrap (Except.ok (get_analytics_body c a))
      else response401
  | Request.payment tok p =>
      if tok = some cfg then handlerWrap (Except.ok (process_payment_body c p))
      else response401
  | Request.support tok t =>
      if tok = some cfg then
        handlerWrap (Except.ok (create_support_ticket_body c t))
      else response401

/-! ## Data-access shim (`services/supabase_service.py`)

In mock mode (`self.client is None`, credentials absent) every operation
returns a literal built from its arguments and the clock; the `..._mock`
functions below are those branches.  The `**data` spreads in the mock
responses follow Python dict-literal semantics via `dictMerge`. -/

namespace SupabaseService

/-- `_mock_event_response`: `{"id": f"evt_mock_{ts}", **event_data,
"created_at": iso, "updated_at": iso}`. -/
def mock_event_response (c : Clock) (event_data : Obj) : Obj :=
  dictMerge
    (dictMerge [("id", JVal.s ("evt_mock_" ++ c.ts))] event_data)
    [("created_at", JVal.s c.iso), ("updated_at", JVal.s c.iso)]

/-- `_mock_events_list`. -/
def mock_events_list : List Obj :=
  [[("id", JVal.s "evt_001"),
    ("name", JVal.s "Mock Bass Championship"),
    ("event_type", JVal.s "SPL"),
    ("start_date", JVal.s "2025-06-15"),
    ("location", JVal.s "Miami, FL"),
    ("status", JVal.s "published")],
   [("id", JVal.s "evt_002"),
    ("name", JVal.s "Mock SQ Masters"),
    ("event_type", JVal.s "SQ"),
    ("start_date", JVal.s "2025-07-20"),
    ("location", JVal.s "Atlanta, GA"),
    ("status", JVal.s "published")]]

/-- `_mock_event_by_id`: a record echoing the requested id. -/
def mock_event_by_id (event_id : String) : Obj :=
  [("id", JVal.s event_id),
   ("name", JVal.s "Mock Event"),
   ("event_type", JVal.s "SPL"),
   ("start_date", JVal.s "2025-06-15"),
   ("location", JVal.s "Mock City, ST"),
   ("status", JVal.s "published")]

/-- `_mock_registration_response`. -/
def mock_registration_response (c : Clock) (registration_data : Obj) : Obj :=
  dictMerge
    (dictMerge [("id", JVal.s ("reg_mock_" ++ c.ts))] registration_data)
    [("status", JVal.s "pending_payment"), ("created_at", JVal.s c.iso)]

/-- `_mock_registrations_list`. -/
def mock_registrations_list : List Obj :=
  [[("id", JVal.s "reg_001"),
    ("event_id", JVal.s "evt_001"),
    ("competitor_name", JVal.s "John Doe"),
    ("status", JVal.s "confirmed")]]

/-- `_mock_analytics_data`. -/
def mock_analytics_data : Obj :=
  [("registrations", JVal.objOf
     [("total", JVal.i 156), ("data", JVal.anil)]),
   ("revenue", JVal.objOf
     [("total", JVal.q 15600), ("transaction_count", JVal.i 156),
      ("data", JVal.anil)]),
   ("attendance", JVal.objOf
     [("total_checked_in", JVal.i 145), ("data", JVal.anil)])]

/-- `_mock_payment_response`. -/
def mock_payment_response (c : Clock) (payment_data : Obj) : Obj :=
  dictMerge
    (dictMerge [("id", JVal.s ("pay_mock_" ++ c.ts))] payment_data)
    [("status", JVal.s "succeeded"), ("processed_at", JVal.s c.iso)]

/-- `_mock_ticket_response`. -/
def mock_ticket_response (c : Clock) (ticket_data : Obj) : Obj :=
  dictMerge
    (dictMerge [("id", JVal.s ("tkt_mock_" ++ c.ts))] ticket_data)
    [("status", JVal.s "open"), ("created_at", JVal.s c.iso)]

/-- `create_event` with `self.client is None`. -/
def create_event_mock (c : Clock) (event_data : Obj) : Obj :=
  mock_event_response c event_data

/-- `get_events` with `self.client is None`: the filter and limit
arguments are ignored entirely. -/
def get_events_mock (_status_q _event_type_q : Option String)
    (_limit : Int) : List Obj :=
  mock_events_list

/-- `get_event_by_id` with `self.client is None`: always `some`. -/
def get_event_by_id_mock (event_id : String) : Option Obj :=
  some (mock_event_by_id event_id)

/-- `create_registration` with `self.client is None`. -/
def create_registration_mock (c : Clock) (registration_data : Obj) : Obj :=
  mock_registration_response c registration_data

/-- `get_registrations` with `self.client is None`: filters ignored. -/
def get_registrations_mock (_event_id _user_id _status_q : Option String) :
    List Obj :=
  mock_registrations_list

/-- `get_event_analytics` with `self.client is None`. -/
def get_event_analytics_mock (_event_id _start_date _end_date : Option String) :
    Obj :=
  mock_analytics_data

/-- `create_payment_record` with `self.client is None`. -/
def create_payment_record_mock (c : Clock) (payment_data : Obj) : Obj :=
  mock_payment_response c payment_data

/-- `create_support_ticket` with `self.client is None`. -/
def create_support_ticket_mock (c : Clock) (ticket_data : Obj) : Obj :=
  mock_ticket_response c ticket_data

/-! ### Live-path analytics (`get_event_analytics` with a client)

Each `_get_*_stats` helper runs one remote query inside its own
`try/except`; the remote call's outcome is the external part, modelled as
an explicit `Except` argument (error = the raised exception's message). -/

/-- A remote query response: `count` when the query asked for an exact
count and the response object carries it, and the data rows. -/
structure CountResponse : Type where
  count : Option Int
  data : List Obj
deriving DecidableEq, Repr

/-- `response.count if hasattr(response, 'count') else len(response.data)`. -/
def statTotal (r : CountResponse) : Int :=
  match r.count with
  | some n => n
  | none => Int.ofNat r.data.length

/-- `_get_registration_stats`: on any query failure, the local `except`
returns the zero default `{"total": 0, "data": []}`. -/
def get_registration_stats (outcome : Except String CountResponse) : Obj :=
  match outcome with
  | Except.ok r =>
      [("total", JVal.i (statTotal r)), ("data", JVal.arrOf (r.data.map JVal.objOf))]
  | Except.error _ => [("total", JVal.i 0), ("data", JVal.anil)]

/-- A payment row returned by the revenue query: the query's `select`
clause guarantees an `amount` column, carried alongside the row. -/
structure RevenueRow : Type where
  amount : Rat
  row : Obj
deriving DecidableEq, Repr

/-- `_get_revenue_stats`: the query filters `status == "succeeded"`
remotely; locally the amounts are summed (`0` when no rows), and any
failure gives `{"total": 0, "transaction_count": 0, "data": []}`. -/
def get_revenue_stats (outcome : Except String (List RevenueRow)) : Obj :=
  match outcome with
  | Except.ok rows =>
      let total : Rat := if rows.isEmpty then 0 else (rows.map RevenueRow.amount).sum
      [("total", JVal.q total),
       ("transaction_count", JVal.i (Int.ofNat rows.length)),
       ("data", JVal.arrOf (rows.map (fun r => JVal.objOf r.row)))]
  | Except.error _ =>
      [("total", JVal.q 0), ("transaction_count", JVal.i 0), ("data", JVal.anil)]

/-- `_get_attendance_stats`: zero default
`{"total_checked_in": 0, "data": []}` on failure. -/
def get_attendance_stats (outcome : Except String CountResponse) : Obj :=
  match outcome with
  | Except.ok r =>
      [("total_checked_in", JVal.i (statTotal r)),
       ("data", JVal.arrOf (r.data.map JVal.objOf))]
  | Except.error _ => [("total_checked_in", JVal.i 0), ("data", JVal.anil)]

/-- `get_event_analytics` on the live path: the three stats helpers are
invoked independently and assembled into one dict; the surrounding
`try/except` re-raises, but the helpers never raise, so the result is
always `Except.ok`. -/
def get_event_analytics_live
    (regOutcome : Except String CountResponse)
    (revOutcome : Except String (List RevenueRow))
    (attOutcome : Except String CountResponse) : Except String Obj :=
  Except.ok
    [("registrations", JVal.objOf (get_registration_stats regOutcome)),
     ("revenue", JVal.objOf (get_revenue_stats revOutcome)),
     ("attendance", JVal.objOf (get_attendance_stats attOutcome))]

end SupabaseService

/-! ## Shared lemmas on the dict operations -/

theorem mem_dictInsert_self (d : Obj) (k : String) (v : JVal) :
    (k, v) ∈ dictInsert d k v := by
  unfold dictInsert
  split
  · next h =>
    rcases List.any_eq_true.mp h with ⟨x, hx, hk⟩
    have hk' : x.1 = k := of_decide_eq_true hk
    refine List.mem_map.mpr ⟨x, hx, ?_⟩
    simp [hk']
  · exact List.mem_append.mpr (Or.inr (List.mem_singleton.mpr rfl))

theorem mem_dictInsert_of_ne {d : Obj} {kv : String × JVal} (k : String)
    (v : JVal) (hmem : kv ∈ d) (hne : kv.1 ≠ k) : kv ∈ dictInsert d k v := by
  unfold dictInsert
  split
  · refine List.mem_map.mpr ⟨kv, hmem, ?_⟩
    simp [hne]
  · exact List.mem_append.mpr (Or.inl hmem)

theorem mem_dictMerge_of_not_overridden {d e : Obj} {kv : String × JVal}
    (hmem : kv ∈ d) (h : ∀ x ∈ e, kv.1 ≠ x.1) : kv ∈ dictMerge d e := by
  induction e generalizing d with
  | nil => simpa [dictMerge] using hmem
  | cons x e ih =>
    have h1 : kv ∈ dictInsert d x.1 x.2 :=
      mem_dictInsert_of_ne x.1 x.2 hmem (h x (List.mem_cons_self x e))
    have h2 := ih h1 (fun y hy => h y (List.mem_cons_of_mem x hy))
    simpa [dictMerge] using h2

theorem mem_dictMerge_self {e : Obj} {kv : String × JVal} (d : Obj)
    (hnd : (e.map Prod.fst).Nodup) (hmem : kv ∈ e) : kv ∈ dictMerge d e := by
  induction e generalizing d with
  | nil => cases hmem
  | cons x e ih =>
    have hx : x.1 ∉ e.map Prod.fst ∧ (e.map Prod.fst).Nodup := by
      constructor
      · exact (List.nodup_cons.mp (by simpa using hnd)).1
      · exact (List.nodup_cons.mp (by simpa using hnd)).2
    rcases List.mem_cons.mp hmem with h | h
    · subst h
      have h1 : kv ∈ dictInsert d kv.1 kv.2 := by
        simpa using mem_dictInsert_self d kv.1 kv.2
      have hkeys : ∀ y ∈ e, kv.1 ≠ y.1 := by
        intro y hy hEq
        exact hx.1 (by rw [hEq]; exact List.mem_map_of_mem Prod.fst hy)
      have h2 := mem_dictMerge_of_not_overridden h1 hkeys
      simpa [dictMerge] using h2
    · have h2 := ih (dictInsert d x.1 x.2) hx.2 h
      simpa [dictMerge] using h2

/-! ## Sample concrete inputs used by witnesses and counterexamples -/

/-- A fixed clock reading. -/
def sampleClock : Clock :=
  { ts := "1718000000.123456",
    iso := "2025-06-10T12:00:00.000000",
    day := "2025-06-10" }

/-- A concrete valid create-event request; the early-bird price is the
non-integral value 25.5. -/
def sampleEvent : EventCreate :=
  { name := "Bass Wars", event_type := "SPL",
    start_date := "2025-06-15", end_date := "2025-06-16",
    location := "Miami, FL", venue_name := "Bayfront Arena",
    max_competitors := 100, early_bird_price := 51 / 2,
    regular_price := 30, description := none }

/-- A concrete valid registration request. -/
def sampleReg : CompetitorRegistration :=
  { event_id := "evt_001", competitor_name := "Jane Roe",
    email := "jane@example.com", phone := "555-0100",
    vehicle_info := [("make", JVal.s "Honda")],
    class_id := "class_a", team_name := none }

/-- A concrete analytics request asking only for attendance. -/
def sampleAnalytics : EventAnalytics :=
  { event_id := none, start_date := none, end_date := none,
    metrics := ["attendance"] }

/-- A concrete valid payment request. -/
def samplePayment : PaymentProcess :=
  { registration_id := "reg_001", amount := 199 / 2, currency := "USD",
    payment_method := "stripe", metadata := none }

/-- A concrete valid support-ticket request. -/
def sampleTicket : SupportTicket :=
  { subject := "Login issue", description := "Cannot log in",
    priority := "medium", category := "account",
    user_email := "user@example.com", attachments := none }

/-! ## Claim C2 -/

/-- What the service does on a failed token check: the constant 401
challenge response, independent of the payload and the clock, with no
success envelope and no created record. -/
def C2Prop (cfg : String) (c : Clock) (req : Request) : Prop :=
  serve cfg c req = response401 ∧
  (serve cfg c req).statusCode = 401 ∧
  (serve cfg c req).headers = [("WWW-Authenticate", "Bearer")] ∧
  hasKey (serve cfg c req).body "success" = false

/-- C2: for every request to an authenticated route whose bearer token is
missing or differs from the configured token, the response is HTTP 401
with a `WWW-Authenticate: Bearer` header and is the fixed auth-error
response — the handler body is never entered and no record is created. -/
theorem c2_auth_rejection (cfg : String) (c : Clock) (req : Request)
    (tok : Option String) (hroute : req.bearer = some tok)
    (hbad : tok ≠ some cfg) : C2Prop cfg c req := by
  cases req with
  | root => exact absurd hroute (by simp [Request.bearer])
  | health => exact absurd hroute (by simp [Request.bearer])
  | listEvents a b l => exact absurd hroute (by simp [Request.bearer])
  | createEvent t e =>
      have ht : t = tok := by simpa [Request.bearer] using hroute
      subst ht
      unfold C2Prop
      simp [serve, hbad, response401, hasKey, getField]
  | registerCompetitor t r =>
      have ht : t = tok := by simpa [Request.bearer] using hroute
      subst ht
      unfold C2Prop
      simp [serve, hbad, response401, hasKey, getField]
  | analytics t a =>
      have ht : t = tok := by simpa [Request.bearer] using hroute
      subst ht
      unfold C2Prop
      simp [serve, hbad, response401, hasKey, getField]
  | payment t p =>
      have ht : t = tok := by simpa [Request.bearer] using hroute
      subst ht
      unfold C2Prop
      simp [serve, hbad, response401, hasKey, getField]
  | support t tk =>
      have ht : t = tok := by simpa [Request.bearer] using hroute
      subst ht
      unfold C2Prop
      simp [serve, hbad, response401, hasKey, getField]

/-- C2 witness: a create-event request presenting the wrong token against
the default configured token is rejected with the fixed 401 response. -/
theorem c2_auth_rejection_witness :
    ((Request.createEvent (some "wrong-token") sampleEvent).bearer
        = some (some "wrong-token") ∧
      (some "wrong-token" : Option String) ≠ some defaultToken) ∧
    C2Prop defaultToken sampleClock
      (Request.createEvent (some "wrong-token") sampleEvent) :=
  ⟨⟨rfl, by decide⟩,
    c2_auth_rejection defaultToken sampleClock
      (Request.createEvent (some "wrong-token") sampleEvent)
      (some "wrong-token") rfl (by decide)⟩

/-! ## Claim C3 -/

/-- C3: `list_events` with status `"published"`, type `"SPL"`, limit `1`
over the two seeded sample events returns exactly one record, the envelope
counts one record, and that record has status `"published"` and type
`"SPL"`. -/
theorem c3_list_events_filter_limit :
    (pySliceTo 1 (filteredEvents (some "published") (some "SPL"))).length
      = 1 ∧
    getField (list_events_body (some "published") (some "SPL") 1) "count"
      = some (JVal.i 1) ∧
    ((pySliceTo 1 (filteredEvents (some "published") (some "SPL"))).all
      (fun e => getField e "status" == some (JVal.s "published")
        && getField e "type" == some (JVal.s "SPL"))) = true := by
  decide

/-! ## Claim C4 -/

/-- C4: the analytics aggregation never fails: for every combination of
sub-query outcomes it returns `Except.ok`, each metric's entry is a
function of that metric's own outcome only, and a failed outcome is
replaced by that metric's zero-valued default. -/
theorem c4_analytics_metric_isolation :
    (∀ (regOutcome : Except String SupabaseService.CountResponse)
       (revOutcome : Except String (List SupabaseService.RevenueRow))
       (attOutcome : Except String SupabaseService.CountResponse),
      SupabaseService.get_event_analytics_live regOutcome revOutcome attOutcome
        = Except.ok
            [("registrations",
              JVal.objOf (SupabaseService.get_registration_stats regOutcome)),
             ("revenue",
              JVal.objOf (SupabaseService.get_revenue_stats revOutcome)),
             ("attendance",
              JVal.objOf (SupabaseService.get_attendance_stats attOutcome))]) ∧
    (∀ e : String,
      SupabaseService.get_registration_stats (Except.error e)
        = [("total", JVal.i 0), ("data", JVal.anil)]) ∧
    (∀ e : String,
      SupabaseService.get_revenue_stats (Except.error e)
        = [("total", JVal.q 0), ("transaction_count", JVal.i 0),
           ("data", JVal.anil)]) ∧
    (∀ e : String,
      SupabaseService.get_attendance_stats (Except.error e)
        = [("total_checked_in", JVal.i 0), ("data", JVal.anil)]) :=
  ⟨fun _ _ _ => rfl, fun _ => rfl, fun _ => rfl, fun _ => rfl⟩

/-! ## Claim C7 -/

/-- The analytics response for a metrics list: the `metrics` sub-dict the
endpoint builds, and how it sits inside the response body. -/
def C7Prop (c : Clock) (a : EventAnalytics) : Prop :=
  hasKey (get_analytics_metrics a.metrics) "registrations" = false ∧
  hasKey (get_analytics_metrics a.metrics) "revenue" = false ∧
  getField (get_analytics_body c a) "analytics"
    = some (JVal.objOf (get_analytics_data c a)) ∧
  getField (get_analytics_data c a) "metrics"
    = some (JVal.objOf (get_analytics_metrics a.metrics))

/-- C7: an analytics request whose metrics list is exactly
`["attendance"]` yields a metrics mapping with no `registrations` key and
no `revenue` key. -/
theorem c7_attendance_only (c : Clock) (a : EventAnalytics)
    (h : a.metrics = ["attendance"]) : C7Prop c a := by
  unfold C7Prop
  rw [h]
  refine ⟨by decide, by decide, rfl, ?_⟩
  have hm : getField (get_analytics_data c a) "metrics"
      = some (JVal.objOf (get_analytics_metrics a.metrics)) := rfl
  rw [hm, h]

/-- C7 witness: the concrete attendance-only request. -/
theorem c7_attendance_only_witness :
    sampleAnalytics.metrics = ["attendance"] ∧
    C7Prop sampleClock sampleAnalytics :=
  ⟨rfl, c7_attendance_only sampleClock sampleAnalytics rfl⟩

/-! ## Claim C10 -/

/-- C10: in mock mode, `get_event_by_id` returns a record for every
requested identifier — never the not-found `none` — and the record's `id`
field echoes the requested identifier. -/
theorem c10_mock_get_event_by_id_total (event_id : String) :
    SupabaseService.get_event_by_id_mock event_id
      = some (SupabaseService.mock_event_by_id event_id) ∧
    SupabaseService.get_event_by_id_mock event_id ≠ none ∧
    getField (SupabaseService.mock_event_by_id event_id) "id"
      = some (JVal.s event_id) :=
  ⟨rfl, by simp [SupabaseService.get_event_by_id_mock], rfl⟩

/-! ## Claim C1 -/

/-- A create-handler envelope: `success = true`, the synthesized record
under `recKey`, with a generated identifier and a timestamp field. -/
def synthOk (body record : Obj) (recKey idVal tsKey tsVal : String) : Prop :=
  getField body "success" = some (JVal.b true) ∧
  getField body recKey = some (JVal.objOf record) ∧
  getField record "id" = some (JVal.s idVal) ∧
  getField record tsKey = some (JVal.s tsVal)

/-- What each create operation actually synthesizes: a success envelope
with a generated id and timestamp, carrying only a fixed subset of the
submitted fields (the shim's mock response, by contrast, spreads in every
submitted field). -/
def C1AmendedProp (c : Clock) (e : EventCreate) (r : CompetitorRegistration)
    (p : PaymentProcess) (t : SupportTicket) (d : Obj)
    (kv : String × JVal) : Prop :=
  synthOk (create_event_body c e) (create_event_record c e) "event"
    ("evt_" ++ c.ts) "created_at" c.iso ∧
  getField (create_event_record c e) "name" = some (JVal.s e.name) ∧
  getField (create_event_record c e) "type" = some (JVal.s e.event_type) ∧
  getField (create_event_record c e) "start_date"
    = some (JVal.s e.start_date) ∧
  getField (create_event_record c e) "end_date" = some (JVal.s e.end_date) ∧
  getField (create_event_record c e) "location" = some (JVal.s e.location) ∧
  getField (create_event_record c e) "venue" = some (JVal.s e.venue_name) ∧
  getField (create_event_record c e) "early_bird_price" = none ∧
  getField (create_event_record c e) "regular_price" = none ∧
  getField (create_event_record c e) "max_competitors" = none ∧
  getField (create_event_record c e) "description" = none ∧
  synthOk (register_competitor_body c r) (register_competitor_record c r)
    "registration" ("reg_" ++ c.ts) "created_at" c.iso ∧
  getField (register_competitor_record c r) "event_id"
    = some (JVal.s r.event_id) ∧
  getField (register_competitor_record c r) "competitor"
    = some (JVal.s r.competitor_name) ∧
  getField (register_competitor_record c r) "email"
    = some (JVal.s r.email) ∧
  getField (register_competitor_record c r) "class"
    = some (JVal.s r.class_id) ∧
  getField (register_competitor_record c r) "phone" = none ∧
  getField (register_competitor_record c r) "vehicle_info" = none ∧
  getField (register_competitor_record c r) "team_name" = none ∧
  synthOk (process_payment_body c p) (process_payment_record c p) "payment"
    ("pay_" ++ c.ts) "processed_at" c.iso ∧
  getField (process_payment_record c p) "registration_id"
    = some (JVal.s p.registration_id) ∧
  getField (process_payment_record c p) "amount" = some (JVal.q p.amount) ∧
  getField (process_payment_record c p) "currency"
    = some (JVal.s p.currency) ∧
  getField (process_payment_record c p) "payment_method"
    = some (JVal.s p.payment_method) ∧
  getField (process_payment_record c p) "metadata" = none ∧
  synthOk (create_support_ticket_body c t) (create_support_ticket_record c t)
    "ticket" ("tkt_" ++ c.ts) "created_at" c.iso ∧
  getField (create_support_ticket_record c t) "subject"
    = some (JVal.s t.subject) ∧
  getField (create_support_ticket_record c t) "description"
    = some (JVal.s t.description) ∧
  getField (create_support_ticket_record c t) "priority"
    = some (JVal.s t.priority) ∧
  getField (create_support_ticket_record c t) "category"
    = some (JVal.s t.category) ∧
  getField (create_support_ticket_record c t) "created_by"
    = some (JVal.s t.user_email) ∧
  getField (create_support_ticket_record c t) "attachments" = none ∧
  kv ∈ SupabaseService.mock_event_response c d

/-- C1 (amended): every create operation handled without a live remote
store returns `success = true` with a synthesized record carrying a
generated identifier and a timestamp, but only a fixed subset of the
submitted fields (create-event drops the prices, capacity and
description; create-registration drops phone, vehicle and team;
create-payment drops metadata; create-ticket drops attachments); the
data-shim's mock event response does retain every submitted field whose
key is not one of its own timestamp keys. -/
theorem c1_create_envelope_amended (c : Clock) (e : EventCreate)
    (r : CompetitorRegistration) (p : PaymentProcess) (t : SupportTicket)
    (d : Obj) (kv : String × JVal) (hnd : (d.map Prod.fst).Nodup)
    (hkv : kv ∈ d) (hca : kv.1 ≠ "created_at") (hua : kv.1 ≠ "updated_at") :
    C1AmendedProp c e r p t d kv := by
  have hshim : kv ∈ SupabaseService.mock_event_response c d := by
    unfold SupabaseService.mock_event_response
    apply mem_dictMerge_of_not_overridden
    · exact mem_dictMerge_self _ hnd hkv
    · intro x hx
      rcases List.mem_cons.mp hx with h | h
      · rw [h]; exact hca
      · rcases List.mem_cons.mp h with h2 | h2
        · rw [h2]; exact hua
        · cases h2
  exact ⟨⟨rfl, rfl, rfl, rfl⟩, rfl, rfl, rfl, rfl, rfl, rfl, rfl, rfl, rfl,
    rfl, ⟨rfl, rfl, rfl, rfl⟩, rfl, rfl, rfl, rfl, rfl, rfl, rfl,
    ⟨rfl, rfl, rfl, rfl⟩, rfl, rfl, rfl, rfl, rfl,
    ⟨rfl, rfl, rfl, rfl⟩, rfl, rfl, rfl, rfl, rfl, rfl, hshim⟩

/-- C1 counterexample: for the concrete create-event request with
early-bird price 25.5, the synthesized record of the 200 success envelope
carries the submitted price under no key at all (its key is absent and no
field holds that value), refuting "a synthesized record that contains
every field the caller submitted". -/
theorem c1_counterexample :
    sampleEvent.early_bird_price = 51 / 2 ∧
    getField (create_event_body sampleClock sampleEvent) "success"
      = some (JVal.b true) ∧
    getField (create_event_record sampleClock sampleEvent)
      "early_bird_price" = none ∧
    getField (create_event_record sampleClock sampleEvent)
      "max_competitors" = none ∧
    ((create_event_record sampleClock sampleEvent).all
      (fun kv => !(kv.2 == JVal.q (51 / 2)))) = true :=
  ⟨rfl, by decide, by decide, by decide, by decide⟩

/-- C1 witness: the amended statement at the concrete sample requests and
a one-field event dict for the shim. -/
theorem c1_create_envelope_amended_witness :
    (((([("name", JVal.s "Bass Wars")] : Obj).map Prod.fst).Nodup ∧
      ("name", JVal.s "Bass Wars") ∈ ([("name", JVal.s "Bass Wars")] : Obj) ∧
      ("name", JVal.s "Bass Wars").1 ≠ "created_at" ∧
      ("name", JVal.s "Bass Wars").1 ≠ "updated_at")) ∧
    C1AmendedProp sampleClock sampleEvent sampleReg samplePayment
      sampleTicket [("name", JVal.s "Bass Wars")]
      ("name", JVal.s "Bass Wars") :=
  ⟨⟨by decide, by decide, by decide, by decide⟩,
    c1_create_envelope_amended sampleClock sampleEvent sampleReg
      samplePayment sampleTicket [("name", JVal.s "Bass Wars")]
      ("name", JVal.s "Bass Wars") (by decide) (by decide) (by decide)
      (by decide)⟩

/-! ## Claim C5 -/

/-- Determinism of the shim's mock mode, relative to the clock: the create
operations agree across two invocations whose clock readings agree, and
the read operations return fixed literals that ignore their arguments
(and the clock) entirely. -/
def C5AmendedProp (c1 c2 : Clock) (d : Obj) : Prop :=
  SupabaseService.create_event_mock c1 d
    = SupabaseService.create_event_mock c2 d ∧
  SupabaseService.create_registration_mock c1 d
    = SupabaseService.create_registration_mock c2 d ∧
  SupabaseService.create_payment_record_mock c1 d
    = SupabaseService.create_payment_record_mock c2 d ∧
  SupabaseService.create_support_ticket_mock c1 d
    = SupabaseService.create_support_ticket_mock c2 d ∧
  (∀ (s t : Option String) (l : Int),
    SupabaseService.get_events_mock s t l = SupabaseService.mock_events_list) ∧
  (∀ a b e : Option String,
    SupabaseService.get_registrations_mock a b e
      = SupabaseService.mock_registrations_list) ∧
  (∀ a b e : Option String,
    SupabaseService.get_event_analytics_mock a b e
      = SupabaseService.mock_analytics_data) ∧
  (∀ eid : String,
    SupabaseService.get_event_by_id_mock eid
      = some (SupabaseService.mock_event_by_id eid))

/-- C5 (amended): in mock mode every shim operation is a deterministic
function of its arguments and the clock reading: two invocations with the
same arguments and the same clock reading return equal results, and the
read operations return the same literal on every invocation regardless of
arguments.  (As stated, the claim fails: the create operations embed the
clock, so invocations at different clock readings differ.) -/
theorem c5_mock_determinism_amended (c1 c2 : Clock) (d : Obj)
    (hts : c1.ts = c2.ts) (hiso : c1.iso = c2.iso) :
    C5AmendedProp c1 c2 d := by
  unfold C5AmendedProp
  refine ⟨?_, ?_, ?_, ?_, fun _ _ _ => rfl, fun _ _ _ => rfl,
    fun _ _ _ => rfl, fun _ => rfl⟩ <;>
    simp [SupabaseService.create_event_mock,
      SupabaseService.mock_event_response,
      SupabaseService.create_registration_mock,
      SupabaseService.mock_registration_response,
      SupabaseService.create_payment_record_mock,
      SupabaseService.mock_payment_response,
      SupabaseService.create_support_ticket_mock,
      SupabaseService.mock_ticket_response, hts, hiso]

/-- C5 counterexample: two mock-mode create-event invocations with the
same argument (the empty dict) at different clock readings return
different results — the mock literal is not invocation-independent. -/
theorem c5_counterexample :
    SupabaseService.create_event_mock
        { ts := "100.1", iso := "2025-01-01T00:00:00", day := "2025-01-01" } []
      ≠ SupabaseService.create_event_mock
        { ts := "100.2", iso := "2025-01-01T00:00:01", day := "2025-01-01" }
        [] := by
  decide

/-- C5 witness: two clock readings that agree on `ts` and `iso` (differing
only in the unused date rendering) give equal mock create responses. -/
theorem c5_mock_determinism_amended_witness :
    (Clock.ts { ts := "7.7", iso := "X", day := "D1" }
        = Clock.ts { ts := "7.7", iso := "X", day := "D2" } ∧
      Clock.iso { ts := "7.7", iso := "X", day := "D1" }
        = Clock.iso { ts := "7.7", iso := "X", day := "D2" }) ∧
    C5AmendedProp { ts := "7.7", iso := "X", day := "D1" }
      { ts := "7.7", iso := "X", day := "D2" } [("name", JVal.s "N")] :=
  ⟨⟨rfl, rfl⟩, c5_mock_determinism_amended _ _ _ rfl rfl⟩

/-! ## Claim C6 -/

/-- The response-envelope discipline the service actually follows: every
response is 200 or 401; a 200 response of an `/api` route is an envelope
with `success = true`; a 401 response is the fixed auth challenge; a
raised exception becomes a 500 whose detail is the stringified exception;
and the root/health bodies carry no `success` field. -/
def C6AmendedProp (cfg : String) (c : Clock) (req : Request) : Prop :=
  ((serve cfg c req).statusCode = 200 ∨ (serve cfg c req).statusCode = 401) ∧
  (req.isApi = true → (serve cfg c req).statusCode = 200 →
    getField (serve cfg c req).body "success" = some (JVal.b true)) ∧
  ((serve cfg c req).statusCode = 401 → serve cfg c req = response401) ∧
  (∀ msg : String, handlerWrap (Except.error msg)
      = { statusCode := 500, headers := [],
          body := [("detail", JVal.s msg)] }) ∧
  getField (root_body c) "success" = none ∧
  getField (health_body c) "success" = none

/-- C6 (amended): every `/api` response is an envelope with a boolean
`success` field and errors surface as 401 (auth challenge) or 500 with the
stringified exception as message — but the root and health endpoints
return 200 responses with no `success` field, so not every HTTP response
of the service is such an envelope. -/
theorem c6_envelope_amended (cfg : String) (c : Clock) (req : Request) :
    C6AmendedProp cfg c req := by
  have hw : ∀ msg : String,
      handlerWrap (Except.error msg)
        = { statusCode := 500, headers := [],
            body := [("detail", JVal.s msg)] } := fun _ => rfl
  unfold C6AmendedProp
  cases req with
  | root =>
      refine ⟨Or.inl rfl, ?_, ?_, hw, rfl, rfl⟩
      · intro h; simp [Request.isApi] at h
      · intro h; simp [serve, ok200] at h
  | health =>
      refine ⟨Or.inl rfl, ?_, ?_, hw, rfl, rfl⟩
      · intro h; simp [Request.isApi] at h
      · intro h; simp [serve, ok200] at h
  | listEvents a b l =>
      refine ⟨Or.inl rfl, fun _ _ => rfl, ?_, hw, rfl, rfl⟩
      intro h; simp [serve, handlerWrap, ok200] at h
  | createEvent tok e =>
      by_cases htok : tok = some cfg <;>
        refine ⟨?_, ?_, ?_, hw, rfl, rfl⟩ <;>
        simp [serve, htok, handlerWrap, ok200, response401,
          create_event_body, getField]
  | registerCompetitor tok r =>
      by_cases htok : tok = some cfg <;>
        refine ⟨?_, ?_, ?_, hw, rfl, rfl⟩ <;>
        simp [serve, htok, handlerWrap, ok200, response401,
          register_competitor_body, getField]
  | analytics tok a =>
      by_cases htok : tok = some cfg <;>
        refine ⟨?_, ?_, ?_, hw, rfl, rfl⟩ <;>
        simp [serve, htok, handlerWrap, ok200, response401,
          get_analytics_body, getField]
  | payment tok p =>
      by_cases htok : tok = some cfg <;>
        refine ⟨?_, ?_, ?_, hw, rfl, rfl⟩ <;>
        simp [serve, htok, handlerWrap, ok200, response401,
          process_payment_body, getField]
  | support tok t =>
      by_cases htok : tok = some cfg <;>
        refine ⟨?_, ?_, ?_, hw, rfl, rfl⟩ <;>
        simp [serve, htok, handlerWrap, ok200, response401,
          create_support_ticket_body, getField]

/-- C6 counterexample: the root and health endpoints answer 200 with
bodies that contain no `success` key at all, refuting "every HTTP response
of the service is an envelope containing a boolean success field". -/
theorem c6_counterexample :
    (serve defaultToken sampleClock Request.root).statusCode = 200 ∧
    hasKey (serve defaultToken sampleClock Request.root).body "success"
      = false ∧
    (serve defaultToken sampleClock Request.health).statusCode = 200 ∧
    hasKey (serve defaultToken sampleClock Request.health).body "success"
      = false := by
  decide

/-- C6 witness: the amended envelope discipline at a concrete
authenticated create-event request. -/
theorem c6_envelope_amended_witness :
    Request.isApi (Request.createEvent (some defaultToken) sampleEvent)
      = true ∧
    C6AmendedProp defaultToken sampleClock
      (Request.createEvent (some defaultToken) sampleEvent) :=
  ⟨rfl, c6_envelope_amended defaultToken sampleClock
    (Request.createEvent (some defaultToken) sampleEvent)⟩

/-! ## Claim C8 -/

/-- The identifier scheme: every generated id is a fixed per-entity tag
concatenated with the clock's timestamp rendering, so two create calls at
clock readings with equal `ts` produce identical identifiers, whatever
their payloads. -/
def C8Prop (c1 c2 : Clock) : Prop :=
  (∀ (c : Clock) (e : EventCreate),
    getField (create_event_record c e) "id"
      = some (JVal.s ("evt_" ++ c.ts))) ∧
  (∀ (c : Clock) (r : CompetitorRegistration),
    getField (register_competitor_record c r) "id"
      = some (JVal.s ("reg_" ++ c.ts))) ∧
  (∀ (c : Clock) (p : PaymentProcess),
    getField (process_payment_record c p) "id"
      = some (JVal.s ("pay_" ++ c.ts))) ∧
  (∀ (c : Clock) (t : SupportTicket),
    getField (create_support_ticket_record c t) "id"
      = some (JVal.s ("tkt_" ++ c.ts))) ∧
  (∀ c : Clock,
    getField (SupabaseService.create_event_mock c []) "id"
      = some (JVal.s ("evt_mock_" ++ c.ts))) ∧
  (∀ e1 e2 : EventCreate,
    getField (create_event_record c1 e1) "id"
      = getField (create_event_record c2 e2) "id") ∧
  (∀ r1 r2 : CompetitorRegistration,
    getField (register_competitor_record c1 r1) "id"
      = getField (register_competitor_record c2 r2) "id") ∧
  (∀ p1 p2 : PaymentProcess,
    getField (process_payment_record c1 p1) "id"
      = getField (process_payment_record c2 p2) "id") ∧
  (∀ t1 t2 : SupportTicket,
    getField (create_support_ticket_record c1 t1) "id"
      = getField (create_support_ticket_record c2 t2) "id") ∧
  getField (SupabaseService.create_event_mock c1 []) "id"
    = getField (SupabaseService.create_event_mock c2 []) "id"

/-- C8: every generated identifier is a fixed prefix concatenated with the
wall-clock timestamp string, so two create calls observing the same
fractional-second clock value produce identical identifiers. -/
theorem c8_timestamp_id_collision (c1 c2 : Clock) (h : c1.ts = c2.ts) :
    C8Prop c1 c2 := by
  unfold C8Prop
  refine ⟨fun _ _ => rfl, fun _ _ => rfl, fun _ _ => rfl, fun _ _ => rfl,
    fun _ => rfl, ?_, ?_, ?_, ?_, ?_⟩
  · intro e1 e2
    show some (JVal.s ("evt_" ++ c1.ts)) = some (JVal.s ("evt_" ++ c2.ts))
    rw [h]
  · intro r1 r2
    show some (JVal.s ("reg_" ++ c1.ts)) = some (JVal.s ("reg_" ++ c2.ts))
    rw [h]
  · intro p1 p2
    show some (JVal.s ("pay_" ++ c1.ts)) = some (JVal.s ("pay_" ++ c2.ts))
    rw [h]
  · intro t1 t2
    show some (JVal.s ("tkt_" ++ c1.ts)) = some (JVal.s ("tkt_" ++ c2.ts))
    rw [h]
  · show some (JVal.s ("evt_mock_" ++ c1.ts))
      = some (JVal.s ("evt_mock_" ++ c2.ts))
    rw [h]

/-- C8 witness: two clock readings in the same fractional second (equal
`ts`, different `iso`) make two different create-event payloads collide on
the generated identifier. -/
theorem c8_timestamp_id_collision_witness :
    Clock.ts { ts := "1699999999.5", iso := "A", day := "D" }
      = Clock.ts { ts := "1699999999.5", iso := "B", day := "E" } ∧
    C8Prop { ts := "1699999999.5", iso := "A", day := "D" }
      { ts := "1699999999.5", iso := "B", day := "E" } :=
  ⟨rfl, c8_timestamp_id_collision _ _ rfl⟩

/-! ## Claim C9 -/

/-- The `list_events` count/limit relationship: `count` is the filtered
total before the limit, and with a nonnegative limit smaller than that
total the returned list is strictly shorter than `count`. -/
def C9AmendedProp (status_q event_type_q : Option String)
    (lim : Int) : Prop :=
  getField (list_events_body status_q event_type_q lim) "count"
    = some (JVal.i ((filteredEvents status_q event_type_q).length : Int)) ∧
  getField (list_events_body status_q event_type_q lim) "events"
    = some (JVal.arrOf
        ((pySliceTo lim (filteredEvents status_q event_type_q)).map
          JVal.objOf)) ∧
  (0 ≤ lim → lim < ((filteredEvents status_q event_type_q).length : Int) →
    ((pySliceTo lim (filteredEvents status_q event_type_q)).length : Int)
      < ((filteredEvents status_q event_type_q).length : Int))

/-- C9 (amended): in every `list_events` response, `count` equals the
number of events remaining after the filters but before the limit, and
when the limit is nonnegative and smaller than that filtered total the
returned list is strictly shorter than `count`.  (As stated, the claim
fails for a negative limit over an empty filtered list, where Python's
`events[:limit]` returns everything and `count` equals the length.) -/
theorem c9_count_before_limit_amended (status_q event_type_q : Option String)
    (lim : Int) : C9AmendedProp status_q event_type_q lim := by
  unfold C9AmendedProp
  refine ⟨rfl, rfl, ?_⟩
  intro h0 h1
  have hsl : pySliceTo lim (filteredEvents status_q event_type_q)
      = (filteredEvents status_q event_type_q).take lim.toNat := by
    simp [pySliceTo, h0]
  rw [hsl, List.length_take]
  omega

/-- C9 counterexample: with status filter `"draft"` (empty filtered list)
and limit `-1`, the limit is smaller than the filtered total yet `count`
(0) does not strictly exceed the returned list's length (0). -/
theorem c9_counterexample :
    ((-1 : Int) < ((filteredEvents (some "draft") none).length : Int)) ∧
    getField (list_events_body (some "draft") none (-1)) "count"
      = some (JVal.i 0) ∧
    getField (list_events_body (some "draft") none (-1)) "events"
      = some JVal.anil ∧
    ¬ (((pySliceTo (-1) (filteredEvents (some "draft") none)).length : Int)
        < ((filteredEvents (some "draft") none).length : Int)) := by
  decide

/-- C9 witness: limit 1 with no filters (filtered total 2) satisfies the
amended hypotheses, and the returned list is strictly shorter than
`count`. -/
theorem c9_count_before_limit_amended_witness :
    ((0 : Int) ≤ 1 ∧ (1 : Int) < ((filteredEvents none none).length : Int)) ∧
    C9AmendedProp none none 1 :=
  ⟨⟨by decide, by decide⟩, c9_count_before_limit_amended none none 1⟩
